import Mathlib

/-!
Verification of the MineServer process supervisor and task scheduler
(src-tauri/src/commands/runner.rs and src-tauri/src/scheduler.rs) against
its natural-language specification.

The Rust code is shallowly embedded as follows:
- OS process handles (std::process::Child) are opaque tokens (Nat).
- The three shared stores of ServerProcessState (HashMap of processes,
  HashSet of explicit stops, HashMap of configs) are modelled as functions
  from String keys, which matches HashMap/HashSet observable semantics
  (at most one binding per key, insert overwrites, remove deletes).
- External effects (spawning a process, a child exiting within the grace
  period, stdin availability) are inputs to the embedded functions.
- Event emissions (window.emit) and sleeps are recorded in explicit action
  traces where a claim is about them.
- Lock acquisition/release structure of stop_server is modelled as an
  explicit event trace in order to reason about critical sections; in the
  Rust source a MutexGuard is released where it goes out of scope.
-/

namespace MineServer

/-- Opaque stand-in for std::process::Child: an OS process reference. -/
abbrev Handle := Nat

/-- Update of a string-keyed map, as HashMap::insert (overwrite). -/
def mapInsert {α : Type} (m : String → Option α) (k : String) (v : α) :
    String → Option α :=
  fun q => if q = k then some v else m q

/-- Deletion from a string-keyed map, as HashMap::remove. -/
def mapRemove {α : Type} (m : String → Option α) (k : String) :
    String → Option α :=
  fun q => if q = k then none else m q

/-- Insertion into a string set, as HashSet::insert. -/
def setInsert (s : String → Bool) (k : String) : String → Bool :=
  fun q => if q = k then true else s q

/-- Removal from a string set, as HashSet::remove. -/
def setRemove (s : String → Bool) (k : String) : String → Bool :=
  fun q => if q = k then false else s q

/-- ServerConfig from runner.rs (ram in MB; Rust u32 modelled as Nat). -/
structure ServerConfig where
  id : String
  path : String
  jar_file : String
  ram : Nat
  java_path : Option String
  startup_flags : Option String
  auto_restart : Bool
deriving DecidableEq, Repr

/-- ServerProcessState from runner.rs: the three shared stores. -/
structure ServerProcessState where
  processes : String → Option Handle
  explicit_stops : String → Bool
  configs : String → Option ServerConfig

/-- The empty initial state built by ServerProcessState::new. -/
def ServerProcessState.new : ServerProcessState :=
  { processes := fun _ => none
    explicit_stops := fun _ => false
    configs := fun _ => none }

/-- start_server_direct from runner.rs. The processes lock is held for the
whole call, so the call is one atomic step on the state. spawnResult is
the outcome of spawn_process_internal (ok: the new child; error: the
failure string it returns). Returns the new state and the Rust
Result of the call. -/
def start_server_direct (s : ServerProcessState) (id path jar_file : String)
    (ram : Nat) (java_path startup_flags : Option String)
    (auto_restart : Option Bool) (spawnResult : Except String Handle) :
    ServerProcessState × Except String String :=
  if (s.processes id).isSome then
    (s, Except.error ("Server is already running"))
  else
    let s1 : ServerProcessState :=
      { s with explicit_stops := setRemove s.explicit_stops id }
    let config : ServerConfig :=
      { id := id, path := path, jar_file := jar_file, ram := ram
        java_path := java_path, startup_flags := startup_flags
        auto_restart := auto_restart.getD false }
    let s2 : ServerProcessState :=
      { s1 with configs := mapInsert s1.configs id config }
    match spawnResult with
    | Except.error e => (s2, Except.error e)
    | Except.ok child =>
        ({ s2 with processes := mapInsert s2.processes id child },
         Except.ok ("Server started"))

/-- How the child behaves during the graceful-stop wait of stop_server:
it exits within the 10-second grace period, it never exits (so the wait
times out and the child is killed), or try_wait itself errors. -/
inductive StopWaitBehavior where
  | exitsWithinGrace
  | neverExits
  | waitError
deriving DecidableEq, Repr

/-- stop_server_direct from runner.rs: insert the explicit-stop marker,
then remove the handle and gracefully stop the child, failing when no
handle is registered. The marker insertion happens before the handle
lookup in the source. -/
def stop_server_direct (s : ServerProcessState) (id : String)
    (wait : StopWaitBehavior) : ServerProcessState × Except String String :=
  let s1 : ServerProcessState :=
    { s with explicit_stops := setInsert s.explicit_stops id }
  match s1.processes id with
  | some _ =>
      let s2 : ServerProcessState :=
        { s1 with processes := mapRemove s1.processes id }
      match wait with
      | StopWaitBehavior.exitsWithinGrace =>
          (s2, Except.ok ("Server stopped gracefully"))
      | StopWaitBehavior.neverExits =>
          (s2, Except.ok ("Server stopped (Forced)"))
      | StopWaitBehavior.waitError =>
          (s2, Except.ok ("Server stopped"))
  | none => (s1, Except.error ("Server not running"))

/-- send_server_command_direct from runner.rs. stdinAvailable is whether
child.stdin is Some; writeResult the outcome of writeln. -/
def send_server_command_direct (s : ServerProcessState) (id : String)
    (stdinAvailable : Bool) (writeResult : Except String Unit) :
    ServerProcessState × Except String Unit :=
  match s.processes id with
  | some _ =>
      if stdinAvailable then
        match writeResult with
        | Except.ok _ => (s, Except.ok ())
        | Except.error e => (s, Except.error e)
      else (s, Except.error ("Server not running or stdin unavailable"))
  | none => (s, Except.error ("Server not running or stdin unavailable"))

/-- Observable actions of one monitor iteration (events emitted through
the window, sleeps, the spawn attempt, and the registry re-insertion). -/
inductive MonitorAction where
  | emitStopped (id : String)
  | emitLog (id : String) (msg : String)
  | sleepSecs (n : Nat)
  | spawnAttempt (id : String)
  | emitStarted (id : String)
  | registerHandle (id : String)
deriving DecidableEq, Repr

/-- Whether the monitor loop keeps watching (auto-restart succeeded) or
returns. -/
inductive MonitorOutcome where
  | terminated
  | continueMonitoring
deriving DecidableEq, Repr

/-- Result of one exit-handling step of the monitor. -/
structure MonitorStepResult where
  state : ServerProcessState
  actions : List MonitorAction
  outcome : MonitorOutcome

/-- The exit-handling part of monitor_server_loop from runner.rs: run when
a 2-second poll has just observed that the child for id exited. It removes
the registry entry, emits server-stopped, consults the explicit-stop set,
and either terminates or auto-restarts per the stored config. spawnResult
is the outcome of the spawn_process_internal call made on the auto-restart
path (unused when that path is not taken). -/
def monitorExitStep (id : String) (spawnResult : Except String Handle)
    (s : ServerProcessState) : MonitorStepResult :=
  let s1 : ServerProcessState :=
    { s with processes := mapRemove s.processes id }
  let acts0 : List MonitorAction := [MonitorAction.emitStopped id]
  if s1.explicit_stops id then
    { state := s1
      actions := acts0 ++
        [MonitorAction.emitLog id
          ("Server " ++ id ++ " stopped (User Initiated).")]
      outcome := MonitorOutcome.terminated }
  else
    match s1.configs id with
    | some cfg =>
        if cfg.auto_restart then
          let acts1 : List MonitorAction := acts0 ++
            [MonitorAction.emitLog id
               ("Server " ++ id ++ " crashed/stopped. Auto-restarting in 3s..."),
             MonitorAction.sleepSecs 3,
             MonitorAction.spawnAttempt id]
          match spawnResult with
          | Except.ok child =>
              { state := { s1 with processes := mapInsert s1.processes id child }
                actions := acts1 ++
                  [MonitorAction.emitStarted id,
                   MonitorAction.registerHandle id]
                outcome := MonitorOutcome.continueMonitoring }
          | Except.error e =>
              { state := s1
                actions := acts1 ++
                  [MonitorAction.emitLog id ("Failed to auto-restart: " ++ e)]
                outcome := MonitorOutcome.terminated }
        else
          { state := s1, actions := acts0
            outcome := MonitorOutcome.terminated }
    | none =>
        { state := s1, actions := acts0
          outcome := MonitorOutcome.terminated }

/-! Lock-event trace of stop_server_direct, for reasoning about its
critical-section structure. In the Rust source the explicit_stops guard
lives in its own block and is released at its end; the processes guard is
bound at function scope and is released only when the function returns,
i.e. after the graceful wait. -/

/-- The three mutexes of ServerProcessState. -/
inductive LockId where
  | processesLock
  | explicitStopsLock
  | configsLock
deriving DecidableEq, Repr

/-- Events of the stop_server_direct call, in program order: lock
acquisitions/releases, the marker insertion, the registry removal, the
stdin write of the stop command, the bounded polling wait of up to 10
seconds, and the force kill. -/
inductive StopEvent where
  | acquire (l : LockId)
  | release (l : LockId)
  | insertStopMarker (id : String)
  | removeHandle (id : String)
  | writeStopCommand
  | gracefulWait
  | forceKill
deriving DecidableEq, Repr

/-- The event trace of stop_server_direct for a given id, whether a handle
for id is registered, and how the child behaves during the wait. Traced
from the source: the explicit_stops lock is taken and released in its own
block; the processes lock is then taken and stays held until the function
returns (its guard is a function-scope binding), so its release is the
last event. -/
def stop_lock_trace (id : String) (handlePresent : Bool)
    (wait : StopWaitBehavior) : List StopEvent :=
  [StopEvent.acquire LockId.explicitStopsLock,
   StopEvent.insertStopMarker id,
   StopEvent.release LockId.explicitStopsLock,
   StopEvent.acquire LockId.processesLock] ++
  (if handlePresent then
    [StopEvent.removeHandle id, StopEvent.writeStopCommand] ++
    (match wait with
     | StopWaitBehavior.exitsWithinGrace => [StopEvent.gracefulWait]
     | StopWaitBehavior.neverExits =>
         [StopEvent.gracefulWait, StopEvent.forceKill]
     | StopWaitBehavior.waitError => [StopEvent.forceKill])
   else []) ++
  [StopEvent.release LockId.processesLock]

/-- Locks held after executing a prefix of a trace. -/
def locksHeldAfter (tr : List StopEvent) : List LockId :=
  tr.foldl
    (fun held e =>
      match e with
      | StopEvent.acquire l => l :: held
      | StopEvent.release l => held.erase l
      | _ => held)
    []

/-- Whether an event is a lock acquisition or release. -/
def isLockEvent : StopEvent → Bool
  | StopEvent.acquire _ => true
  | StopEvent.release _ => true
  | _ => false

/-- Two events of a trace occur inside one critical section: they occur at
positions i before j with no lock acquisition or release strictly between
them. -/
def sameCriticalSection (tr : List StopEvent) (e1 e2 : StopEvent) : Prop :=
  ∃ i : Fin tr.length, ∃ j : Fin tr.length, i < j ∧
    tr.get i = e1 ∧ tr.get j = e2 ∧
    ∀ k : Fin tr.length, i < k → k < j → isLockEvent (tr.get k) = false

/-- No lock is held at any occurrence of the given event in the trace. -/
def noLockHeldDuring (tr : List StopEvent) (e : StopEvent) : Prop :=
  ∀ i : Fin tr.length, tr.get i = e →
    locksHeldAfter (tr.take i.val) = []

instance (tr : List StopEvent) (e1 e2 : StopEvent) :
    Decidable (sameCriticalSection tr e1 e2) := by
  unfold sameCriticalSection; infer_instance

instance (tr : List StopEvent) (e : StopEvent) :
    Decidable (noLockHeldDuring tr e) := by
  unfold noLockHeldDuring; infer_instance

/-! The task scheduler (scheduler.rs). -/

/-- ScheduledTask from backup.rs (the struct the scheduler loads and
saves). last_run is an RFC3339 timestamp string if present. -/
structure ScheduledTask where
  id : String
  name : String
  task_type : String
  server_id : String
  server_name : String
  cron_expression : String
  enabled : Bool
  last_run : Option String
  command : Option String
deriving DecidableEq, Repr

/-- Splitting a char list at whitespace, dropping empty tokens: the model
of Rust str::split_whitespace. acc is the current token, reversed.
Char.isWhitespace here covers the ASCII whitespace of cron strings;
Rust uses the full Unicode White_Space class. -/
def splitWsAux : List Char → List Char → List (List Char)
  | [], acc => if acc.isEmpty then [] else [acc.reverse]
  | c :: rest, acc =>
      if c.isWhitespace then
        if acc.isEmpty then splitWsAux rest []
        else acc.reverse :: splitWsAux rest []
      else splitWsAux rest (c :: acc)

/-- Rust str::split_whitespace over a Lean string. -/
def rustSplitWhitespace (s : String) : List String :=
  (splitWsAux s.data []).map (fun cs => String.mk cs)

/-- The numeric value denoted by a decimal literal: an optional leading
plus sign then one or more ASCII digits (exactly the shape Rust's u32
parsing accepts), with no magnitude bound. -/
def decimalLiteralValue (s : String) : Option Nat :=
  match s.data with
  | [] => none
  | c :: rest =>
      let digits := if c = '+' then rest else c :: rest
      if digits.isEmpty then none
      else if digits.all Char.isDigit then
        some (digits.foldl (fun a d => a * 10 + (d.toNat - 48)) 0)
      else none

/-- Rust str::parse::<u32>: the decimal denotation when it fits in
u32 (< 4294967296 = 2^32), an error otherwise. -/
def rustParseU32 (s : String) : Option Nat :=
  match decimalLiteralValue s with
  | some n => if n < 4294967296 then some n else none
  | none => none

/-- The inner helper named matches in is_time_to_run: a pattern matches a
value when it is the wildcard or parses as u32 to exactly that value. -/
def matchesField (pattern : String) (value : Nat) : Bool :=
  if pattern = ("*") then true
  else
    match rustParseU32 pattern with
    | some v => v = value
    | none => false

/-- is_time_to_run from scheduler.rs: exactly five whitespace-separated
fields, of which only the minute and hour fields are evaluated. The Rust
function takes the DateTime now; only now.minute() and now.hour() are
read, which are the two Nat arguments here. -/
def is_time_to_run (cron : String) (minute hour : Nat) : Bool :=
  match rustSplitWhitespace cron with
  | [minF, hourF, _dom, _month, _dow] =>
      matchesField minF minute && matchesField hourF hour
  | _ => false

/-- The per-task body of the scheduler tick loop in init_scheduler
(scheduler.rs): skip disabled tasks; if the cron expression matches the
current minute/hour, parse last_run (parse models
chrono::DateTime::parse_from_rfc3339 composed with the conversion to a
timestamp; timestamps are whole seconds as Int, matching num_seconds),
treat the task as recently run when fewer than 90 seconds have elapsed,
and otherwise stamp last_run with the formatted current time (fmt models
to_rfc3339) and dispatch the task on its own thread. Returns the updated
task and whether it was dispatched. -/
def schedulerProcessTask (parse : String → Option Int) (fmt : Int → String)
    (now : Int) (nowMinute nowHour : Nat) (task : ScheduledTask) :
    ScheduledTask × Bool :=
  if !task.enabled then (task, false)
  else if is_time_to_run task.cron_expression nowMinute nowHour then
    let last_run_time := task.last_run.bind parse
    let recent_run :=
      match last_run_time with
      | some last => decide (now - last < 90)
      | none => false
    if !recent_run then
      ({ task with last_run := some (fmt now) }, true)
    else (task, false)
  else (task, false)

/-- The restart branch of the scheduler dispatch in init_scheduler
(scheduler.rs): insert the explicit-stop marker, remove and terminate the
handle if present, sleep 5 seconds, then re-Start from the stored config
if one exists and the main window is available. spawnResult feeds the
start_server_direct call. Returns the resulting shared state. -/
def schedulerRestartDispatch (s : ServerProcessState) (server_id : String)
    (windowAvailable : Bool) (spawnResult : Except String Handle) :
    ServerProcessState :=
  let s1 : ServerProcessState :=
    { s with explicit_stops := setInsert s.explicit_stops server_id }
  let s2 : ServerProcessState :=
    match s1.processes server_id with
    | some _ => { s1 with processes := mapRemove s1.processes server_id }
    | none => s1
  match s2.configs server_id, windowAvailable with
  | some cfg, true =>
      (start_server_direct s2 cfg.id cfg.path cfg.jar_file cfg.ram
        cfg.java_path cfg.startup_flags (some cfg.auto_restart)
        spawnResult).1
  | _, _ => s2

/-! Helper lemmas about start_server_direct on a non-running id. -/

theorem start_configs_of_not_running (s : ServerProcessState)
    (id path jar : String) (ram : Nat) (jp sf : Option String)
    (ar : Option Bool) (r : Except String Handle)
    (h : s.processes id = none) :
    (start_server_direct s id path jar ram jp sf ar r).1.configs =
      mapInsert s.configs id
        { id := id, path := path, jar_file := jar, ram := ram
          java_path := jp, startup_flags := sf
          auto_restart := ar.getD false } := by
  unfold start_server_direct
  cases r <;> simp [h]

theorem start_stops_of_not_running (s : ServerProcessState)
    (id path jar : String) (ram : Nat) (jp sf : Option String)
    (ar : Option Bool) (r : Except String Handle)
    (h : s.processes id = none) :
    (start_server_direct s id path jar ram jp sf ar r).1.explicit_stops =
      setRemove s.explicit_stops id := by
  unfold start_server_direct
  cases r <;> simp [h]

/-- C2: if id already has a registered handle, Start(id, ...) fails with
the already-running error and returns the state unchanged: the first
handle is unaffected and no second handle is registered, whatever the
requested configuration and whatever the spawn would have done. -/
theorem start_rejected_when_already_running (s : ServerProcessState)
    (id path jar : String) (ram : Nat) (jp sf : Option String)
    (ar : Option Bool) (r : Except String Handle) (child : Handle)
    (h : s.processes id = some child) :
    start_server_direct s id path jar ram jp sf ar r =
      (s, Except.error ("Server is already running")) := by
  unfold start_server_direct
  simp [h]

theorem start_rejected_when_already_running_witness :
    start_server_direct
      { processes := fun q => if q = ("a") then some 1 else none
        explicit_stops := fun _ => false
        configs := fun _ => none }
      ("a") ("p2") ("j2") 2048 none none (some true) (Except.ok 5) =
      ({ processes := fun q => if q = ("a") then some 1 else none
         explicit_stops := fun _ => false
         configs := fun _ => none },
       Except.error ("Server is already running")) := by
  exact start_rejected_when_already_running _ ("a") ("p2") ("j2") 2048
    none none (some true) (Except.ok 5) 1 (by simp)

/-- C10: when id has no registered handle, Start(id, ...) removes id from
the explicit-stop set, and the removal is observable even when the spawn
fails (the marker reset precedes the spawn in the source), so a previous
explicit Stop never suppresses auto-restart of the new instance. -/
theorem start_clears_explicit_stop_marker (s : ServerProcessState)
    (id path jar : String) (ram : Nat) (jp sf : Option String)
    (ar : Option Bool) (r : Except String Handle)
    (h : s.processes id = none) :
    (start_server_direct s id path jar ram jp sf ar r).1.explicit_stops id
      = false := by
  rw [start_stops_of_not_running s id path jar ram jp sf ar r h]
  simp [setRemove]

theorem start_clears_explicit_stop_marker_witness :
    (start_server_direct
      { processes := fun _ => none
        explicit_stops := fun q => decide (q = ("a"))
        configs := fun _ => none }
      ("a") ("p") ("j.jar") 1024 none none none
      (Except.error ("Failed to start server: boom"))).1.explicit_stops
      ("a") = false := by
  exact start_clears_explicit_stop_marker _ ("a") ("p") ("j.jar") 1024
    none none none (Except.error ("Failed to start server: boom")) rfl

/-- C3 counterexample: on the empty state, Stop of an unregistered id
returns the not-running error but does have a side effect: the id has
been inserted into the explicit-stop set (the insertion precedes the
handle check in the source). -/
theorem stop_not_running_side_effect_counterexample :
    (stop_server_direct ServerProcessState.new ("a")
        StopWaitBehavior.exitsWithinGrace).2 =
      Except.error ("Server not running") ∧
    ServerProcessState.new.explicit_stops ("a") = false ∧
    (stop_server_direct ServerProcessState.new ("a")
        StopWaitBehavior.exitsWithinGrace).1.explicit_stops ("a") = true := by
  refine ⟨rfl, rfl, by decide⟩

/-- C3 amended: Stop(id) with no registered handle returns the
not-running error and leaves the registry and the config store unchanged,
but it does mutate the explicit-stop set: id is inserted into it (and
every other id keeps its previous membership). -/
theorem stop_not_running_amended (s : ServerProcessState) (id : String)
    (w : StopWaitBehavior) (h : s.processes id = none) :
    (stop_server_direct s id w).2 = Except.error ("Server not running") ∧
    (stop_server_direct s id w).1.processes = s.processes ∧
    (stop_server_direct s id w).1.configs = s.configs ∧
    (stop_server_direct s id w).1.explicit_stops id = true ∧
    (∀ k, k ≠ id →
      (stop_server_direct s id w).1.explicit_stops k =
        s.explicit_stops k) := by
  unfold stop_server_direct
  refine ⟨?_, ?_, ?_, ?_, ?_⟩ <;> simp [h, setInsert]
  intro k hk
  simp [hk]

theorem stop_not_running_amended_witness :
    (stop_server_direct ServerProcessState.new ("b")
        StopWaitBehavior.neverExits).2 =
      Except.error ("Server not running") := by
  exact (stop_not_running_amended ServerProcessState.new ("b")
    StopWaitBehavior.neverExits rfl).1

/-- C1: when the monitor observes the exit of a process whose id is in
the explicit-stop set, it emits the server-stopped event and one final
user-initiated log line, terminates, and never respawns: no register
action occurs and no handle remains for id, regardless of the stored
config (in particular even if auto_restart is true). -/
theorem monitor_explicit_stop_no_restart (s : ServerProcessState)
    (id : String) (r : Except String Handle)
    (h : s.explicit_stops id = true) :
    (monitorExitStep id r s).outcome = MonitorOutcome.terminated ∧
    (monitorExitStep id r s).actions =
      [MonitorAction.emitStopped id,
       MonitorAction.emitLog id
         ("Server " ++ id ++ " stopped (User Initiated).")] ∧
    (monitorExitStep id r s).state.processes id = none ∧
    MonitorAction.registerHandle id ∉ (monitorExitStep id r s).actions := by
  unfold monitorExitStep
  simp [h, mapRemove]

theorem monitor_explicit_stop_no_restart_witness :
    (monitorExitStep ("a") (Except.ok 2)
      { processes := fun q => if q = ("a") then some 1 else none
        explicit_stops := fun q => decide (q = ("a"))
        configs := fun q =>
          if q = ("a") then
            some { id := ("a"), path := ("p"), jar_file := ("j.jar")
                   ram := 1024, java_path := none, startup_flags := none
                   auto_restart := true }
          else none }).outcome = MonitorOutcome.terminated := by
  exact (monitor_explicit_stop_no_restart _ ("a") (Except.ok 2) rfl).1

/-- C4 counterexample: on a non-explicit exit with auto_restart true and
a successful respawn, the monitor does not perform the claimed sequence
ending with register-then-started: it emits the started event before
re-inserting the handle into the registry. The first conjunct records the
actual trace, the second refutes the claimed one at this input. -/
theorem monitor_restart_order_counterexample :
    (monitorExitStep ("a") (Except.ok 2)
      { processes := fun q => if q = ("a") then some 1 else none
        explicit_stops := fun _ => false
        configs := fun q =>
          if q = ("a") then
            some { id := ("a"), path := ("p"), jar_file := ("j.jar")
                   ram := 1024, java_path := none, startup_flags := none
                   auto_restart := true }
          else none }).actions =
      [MonitorAction.emitStopped ("a"),
       MonitorAction.emitLog ("a")
         ("Server a crashed/stopped. Auto-restarting in 3s..."),
       MonitorAction.sleepSecs 3,
       MonitorAction.spawnAttempt ("a"),
       MonitorAction.emitStarted ("a"),
       MonitorAction.registerHandle ("a")] ∧
    (monitorExitStep ("a") (Except.ok 2)
      { processes := fun q => if q = ("a") then some 1 else none
        explicit_stops := fun _ => false
        configs := fun q =>
          if q = ("a") then
            some { id := ("a"), path := ("p"), jar_file := ("j.jar")
                   ram := 1024, java_path := none, startup_flags := none
                   auto_restart := true }
          else none }).actions ≠
      [MonitorAction.emitStopped ("a"),
       MonitorAction.emitLog ("a")
         ("Server a crashed/stopped. Auto-restarting in 3s..."),
       MonitorAction.sleepSecs 3,
       MonitorAction.spawnAttempt ("a"),
       MonitorAction.registerHandle ("a"),
       MonitorAction.emitStarted ("a")] := by
  refine ⟨by decide, by decide⟩

/-- C4 amended: on a non-explicit exit with a stored config whose
auto_restart is true, the monitor emits a crash notice, sleeps 3 seconds,
respawns from the stored config, emits the started event, then registers
the new handle (started is emitted just before registration, not after),
and keeps monitoring with exactly the new handle registered for id; if
the respawn fails it emits the failure and terminates with no handle
registered for id. -/
theorem monitor_auto_restart_amended (s : ServerProcessState)
    (id : String) (cfg : ServerConfig)
    (hstop : s.explicit_stops id = false)
    (hcfg : s.configs id = some cfg) (har : cfg.auto_restart = true) :
    (∀ child : Handle,
      (monitorExitStep id (Except.ok child) s).actions =
        [MonitorAction.emitStopped id,
         MonitorAction.emitLog id
           ("Server " ++ id ++ " crashed/stopped. Auto-restarting in 3s..."),
         MonitorAction.sleepSecs 3,
         MonitorAction.spawnAttempt id,
         MonitorAction.emitStarted id,
         MonitorAction.registerHandle id] ∧
      (monitorExitStep id (Except.ok child) s).outcome =
        MonitorOutcome.continueMonitoring ∧
      (monitorExitStep id (Except.ok child) s).state.processes id =
        some child) ∧
    (∀ e : String,
      (monitorExitStep id (Except.error e) s).actions =
        [MonitorAction.emitStopped id,
         MonitorAction.emitLog id
           ("Server " ++ id ++ " crashed/stopped. Auto-restarting in 3s..."),
         MonitorAction.sleepSecs 3,
         MonitorAction.spawnAttempt id,
         MonitorAction.emitLog id ("Failed to auto-restart: " ++ e)] ∧
      (monitorExitStep id (Except.error e) s).outcome =
        MonitorOutcome.terminated ∧
      (monitorExitStep id (Except.error e) s).state.processes id =
        none) := by
  unfold monitorExitStep
  simp [hstop, hcfg, har, mapInsert, mapRemove]

theorem monitor_auto_restart_amended_witness :
    (monitorExitStep ("a") (Except.ok 7)
      { processes := fun q => if q = ("a") then some 1 else none
        explicit_stops := fun _ => false
        configs := fun q =>
          if q = ("a") then
            some { id := ("a"), path := ("p"), jar_file := ("j.jar")
                   ram := 1024, java_path := none, startup_flags := none
                   auto_restart := true }
          else none }).state.processes ("a") = some 7 := by
  exact ((monitor_auto_restart_amended _ ("a") _ rfl rfl rfl).1 7).2.2

/-- C8 counterexample: a monitor that observes the exit of an explicitly
stopped id terminates but does not clear the marker: afterwards the id is
still a member of the explicit-stop set. -/
theorem monitor_keeps_marker_counterexample :
    (monitorExitStep ("a") (Except.ok 2)
      { processes := fun q => if q = ("a") then some 1 else none
        explicit_stops := fun q => decide (q = ("a"))
        configs := fun _ => none }).outcome = MonitorOutcome.terminated ∧
    (monitorExitStep ("a") (Except.ok 2)
      { processes := fun q => if q = ("a") then some 1 else none
        explicit_stops := fun q => decide (q = ("a"))
        configs := fun _ => none }).state.explicit_stops ("a") = true := by
  refine ⟨by decide, by decide⟩

/-- C8 amended: the explicit-stop marker is observed by the monitor that
detects the exit, which then terminates, but the monitor does not clear
it: the id stays in the explicit-stop set until the next Start(id), which
removes the marker (whatever that Start's parameters and spawn outcome
are). -/
theorem marker_cleared_by_next_start_not_monitor (s : ServerProcessState)
    (id : String) (r : Except String Handle)
    (h : s.explicit_stops id = true) :
    (monitorExitStep id r s).outcome = MonitorOutcome.terminated ∧
    (monitorExitStep id r s).state.explicit_stops id = true ∧
    (∀ path jar ram jp sf ar r2,
      (start_server_direct (monitorExitStep id r s).state id path jar ram
        jp sf ar r2).1.explicit_stops id = false) := by
  have hnone : (monitorExitStep id r s).state.processes id = none := by
    unfold monitorExitStep
    simp [h, mapRemove]
  refine ⟨?_, ?_, ?_⟩
  · unfold monitorExitStep
    simp [h]
  · unfold monitorExitStep
    simp [h]
  · intro path jar ram jp sf ar r2
    rw [start_stops_of_not_running _ id path jar ram jp sf ar r2 hnone]
    simp [setRemove]

theorem marker_cleared_by_next_start_not_monitor_witness :
    (start_server_direct
      (monitorExitStep ("a") (Except.ok 2)
        { processes := fun q => if q = ("a") then some 1 else none
          explicit_stops := fun q => decide (q = ("a"))
          configs := fun _ => none }).state
      ("a") ("p") ("j.jar") 1024 none none none
      (Except.ok 9)).1.explicit_stops ("a") = false := by
  exact (marker_cleared_by_next_start_not_monitor _ ("a") (Except.ok 2)
    rfl).2.2 ("p") ("j.jar") 1024 none none none (Except.ok 9)

/-- C9 counterexample: a Start call rejected with the already-running
error does not store its config, so right after that call the entry does
not hold that call's config (it still holds the config of the earlier
accepted Start). -/
theorem configstore_stale_after_rejected_start_counterexample :
    (start_server_direct
      { processes := fun q => if q = ("a") then some 1 else none
        explicit_stops := fun _ => false
        configs := fun q =>
          if q = ("a") then
            some { id := ("a"), path := ("p1"), jar_file := ("j1")
                   ram := 1024, java_path := none, startup_flags := none
                   auto_restart := false }
          else none }
      ("a") ("p2") ("j2") 2048 none none (some true) (Except.ok 5)).2 =
      Except.error ("Server is already running") ∧
    (start_server_direct
      { processes := fun q => if q = ("a") then some 1 else none
        explicit_stops := fun _ => false
        configs := fun q =>
          if q = ("a") then
            some { id := ("a"), path := ("p1"), jar_file := ("j1")
                   ram := 1024, java_path := none, startup_flags := none
                   auto_restart := false }
          else none }
      ("a") ("p2") ("j2") 2048 none none (some true) (Except.ok 5)).1.configs
      ("a") ≠
      some { id := ("a"), path := ("p2"), jar_file := ("j2"), ram := 2048
             java_path := none, startup_flags := none
             auto_restart := true } := by
  refine ⟨rfl, by decide⟩

/-- C9 amended: the config store reflects the most recent accepted Start
for id: every Start call that passes the already-running check stores
exactly its config (even when the spawn then fails), while Stop,
SendCommand and the monitor never write the config store, and a scheduler
restart dispatch re-enters through Start with the stored config, leaving
the entry equal to its previous value. A Start rejected with the
already-running error stores nothing. -/
theorem configstore_reflects_last_accepted_start :
    (∀ (s : ServerProcessState) (id path jar : String) (ram : Nat)
        (jp sf : Option String) (ar : Option Bool)
        (r : Except String Handle), s.processes id = none →
      (start_server_direct s id path jar ram jp sf ar r).1.configs id =
        some { id := id, path := path, jar_file := jar, ram := ram
               java_path := jp, startup_flags := sf
               auto_restart := ar.getD false }) ∧
    (∀ (s : ServerProcessState) (id : String) (w : StopWaitBehavior),
      (stop_server_direct s id w).1.configs = s.configs) ∧
    (∀ (s : ServerProcessState) (id : String) (sa : Bool)
        (wr : Except String Unit),
      (send_server_command_direct s id sa wr).1.configs = s.configs) ∧
    (∀ (s : ServerProcessState) (id : String) (r : Except String Handle),
      (monitorExitStep id r s).state.configs = s.configs) ∧
    (∀ (s : ServerProcessState) (sid : String) (wa : Bool)
        (r : Except String Handle) (cfg : ServerConfig),
      s.configs sid = some cfg → cfg.id = sid →
      (schedulerRestartDispatch s sid wa r).configs sid = some cfg) := by
  refine ⟨?_, ?_, ?_, ?_, ?_⟩
  · intro s id path jar ram jp sf ar r h
    rw [start_configs_of_not_running s id path jar ram jp sf ar r h]
    simp [mapInsert]
  · intro s id w
    unfold stop_server_direct
    cases hp : s.processes id <;> cases w <;> simp [hp]
  · intro s id sa wr
    unfold send_server_command_direct
    cases hp : s.processes id <;> cases sa <;> cases wr <;> simp [hp]
  · intro s id r
    unfold monitorExitStep
    cases hs : s.explicit_stops id <;>
      cases hc : s.configs id <;>
        simp [hs, hc]
    case false.some cfg =>
      cases har : cfg.auto_restart <;> cases r <;> simp [har]
  · intro s sid wa r cfg hcfg hid
    subst hid
    unfold schedulerRestartDispatch
    cases wa
    · cases hp : s.processes cfg.id <;> simp [hp, hcfg]
    · cases hp : s.processes cfg.id
      · have hnone :
          ({ s with
              explicit_stops := setInsert s.explicit_stops cfg.id
              : ServerProcessState }).processes cfg.id = none := hp
        simp only [hp, hcfg]
        rw [start_configs_of_not_running _ cfg.id cfg.path cfg.jar_file
          cfg.ram cfg.java_path cfg.startup_flags (some cfg.auto_restart)
          r hnone]
        simp [mapInsert]
      · have hnone :
          ({ s with
              processes := mapRemove s.processes cfg.id
              explicit_stops := setInsert s.explicit_stops cfg.id
              : ServerProcessState }).processes cfg.id = none := by
          simp [mapRemove]
        simp only [hp, hcfg]
        rw [start_configs_of_not_running _ cfg.id cfg.path cfg.jar_file
          cfg.ram cfg.java_path cfg.startup_flags (some cfg.auto_restart)
          r hnone]
        simp [mapInsert]

theorem configstore_reflects_last_accepted_start_witness :
    (start_server_direct ServerProcessState.new ("a") ("p1") ("j1") 1024
      none none (some true) (Except.ok 3)).1.configs ("a") =
      some { id := ("a"), path := ("p1"), jar_file := ("j1"), ram := 1024
             java_path := none, startup_flags := none
             auto_restart := true } := by
  exact configstore_reflects_last_accepted_start.1
    ServerProcessState.new ("a") ("p1") ("j1") 1024 none none (some true)
    (Except.ok 3) rfl

/-- C7 counterexample: in the event trace of Stop on a registered id, the
marker insertion and the handle removal are not inside one critical
section (a lock release and a lock acquisition lie between them), and the
graceful-stop wait does occur with a lock held (the registry guard is
released only when the call returns). -/
theorem stop_lock_claims_counterexample :
    ¬ sameCriticalSection
        (stop_lock_trace ("a") true StopWaitBehavior.neverExits)
        (StopEvent.insertStopMarker ("a"))
        (StopEvent.removeHandle ("a")) ∧
    ¬ noLockHeldDuring
        (stop_lock_trace ("a") true StopWaitBehavior.neverExits)
        StopEvent.gracefulWait := by
  refine ⟨by decide, by decide⟩

/-- C7 amended: Stop(id) on a registered id inserts the explicit-stop
marker in a critical section of the explicit-stop lock, releases it, and
only then takes the registry lock, under which it removes the handle;
the handle is therefore out of the registry before the graceful-stop wait
begins, but all events from the removal to the end of the call — the
stdin write, the wait of up to 10 seconds and any force kill — happen
with the registry lock still held, since its guard is released only on
return. -/
theorem stop_lock_structure_amended (id : String) (w : StopWaitBehavior) :
    ∃ tail : List StopEvent,
      stop_lock_trace id true w =
        [StopEvent.acquire LockId.explicitStopsLock,
         StopEvent.insertStopMarker id,
         StopEvent.release LockId.explicitStopsLock,
         StopEvent.acquire LockId.processesLock,
         StopEvent.removeHandle id,
         StopEvent.writeStopCommand] ++ tail ++
        [StopEvent.release LockId.processesLock] ∧
      (∀ e ∈ tail, isLockEvent e = false) ∧
      (w ≠ StopWaitBehavior.waitError → StopEvent.gracefulWait ∈ tail) := by
  cases w
  · exact ⟨[StopEvent.gracefulWait], rfl, by decide, by intro _; decide⟩
  · exact ⟨[StopEvent.gracefulWait, StopEvent.forceKill], rfl, by decide,
      by intro _; decide⟩
  · refine ⟨[StopEvent.forceKill], rfl, by decide, ?_⟩
    intro h
    exact absurd rfl h

theorem stop_lock_structure_amended_witness :
    StopEvent.gracefulWait ∈
      (stop_lock_trace ("a") true StopWaitBehavior.exitsWithinGrace) := by
  obtain ⟨tail, heq, -, hmem⟩ :=
    stop_lock_structure_amended ("a") StopWaitBehavior.exitsWithinGrace
  rw [heq]
  have := hmem (by decide)
  simp [this]

/-- Spec-side cron field matching, written from the spec wording: the
wildcard matches any value, and a literal decimal (an optional plus sign
then digits, read as a plain numeral) matches only the equal value. -/
def specFieldMatches (pattern : String) (value : Nat) : Prop :=
  pattern = ("*") ∨ decimalLiteralValue pattern = some value

theorem matchesField_iff_spec (pat : String) (v : Nat)
    (hv : v < 4294967296) :
    matchesField pat v = true ↔ specFieldMatches pat v := by
  unfold matchesField specFieldMatches rustParseU32
  by_cases hp : pat = ("*")
  · simp [hp]
  · simp only [hp, if_false]
    cases hd : decimalLiteralValue pat with
    | none => simp
    | some n =>
        by_cases hn : n < 4294967296
        · simp [hn]
        · simp [hn]
          omega

/-- C5: is_time_to_run returns true exactly when the cron string has
five whitespace-separated fields whose first field matches the minute and
second field matches the hour in the spec sense (wildcard matches
anything, a literal decimal only the equal value); the result depends on
nothing but the first two fields; and the expression 30 14 * * * matches
exactly at minute 30 of hour 14. Stated for any real local time (minute
below 60, hour below 24). -/
theorem is_time_to_run_spec (cron : String) (m h : Nat)
    (hm : m < 60) (hh : h < 24) :
    (is_time_to_run cron m h = true ↔
      ∃ f1 f2 f3 f4 f5, rustSplitWhitespace cron = [f1, f2, f3, f4, f5] ∧
        specFieldMatches f1 m ∧ specFieldMatches f2 h) ∧
    (∀ (cron2 f1 f2 d1 mo1 w1 d2 mo2 w2 : String),
      rustSplitWhitespace cron = [f1, f2, d1, mo1, w1] →
      rustSplitWhitespace cron2 = [f1, f2, d2, mo2, w2] →
      is_time_to_run cron m h = is_time_to_run cron2 m h) ∧
    (is_time_to_run ("30 14 * * *") m h =
      (decide (m = 30) && decide (h = 14))) := by
  have hmBig : m < 4294967296 := by omega
  have hhBig : h < 4294967296 := by omega
  refine ⟨?_, ?_, ?_⟩
  · unfold is_time_to_run
    generalize hsp : rustSplitWhitespace cron = ls
    rcases ls with _ | ⟨f1, _ | ⟨f2, _ | ⟨f3, _ | ⟨f4, _ | ⟨f5, _ | ⟨f6, rest⟩⟩⟩⟩⟩⟩ <;>
      try (simp; done)
    constructor
    · intro ht
      have ht2 : (matchesField f1 m && matchesField f2 h) = true := ht
      rw [Bool.and_eq_true] at ht2
      exact ⟨f1, f2, f3, f4, f5, rfl,
        (matchesField_iff_spec _ _ hmBig).mp ht2.1,
        (matchesField_iff_spec _ _ hhBig).mp ht2.2⟩
    · rintro ⟨g1, g2, g3, g4, g5, heq, hs1, hs2⟩
      obtain ⟨e1, e2, -, -, -⟩ :
          f1 = g1 ∧ f2 = g2 ∧ f3 = g3 ∧ f4 = g4 ∧ f5 = g5 := by
        simpa using heq
      subst e1
      subst e2
      show (matchesField f1 m && matchesField f2 h) = true
      rw [Bool.and_eq_true]
      exact ⟨(matchesField_iff_spec _ _ hmBig).mpr hs1,
        (matchesField_iff_spec _ _ hhBig).mpr hs2⟩
  · intro cron2 f1 f2 d1 mo1 w1 d2 mo2 w2 h1 h2
    unfold is_time_to_run
    rw [h1, h2]
  · have hsp : rustSplitWhitespace ("30 14 * * *") =
        [("30"), ("14"), ("*"), ("*"), ("*")] := by decide
    have h30 : rustParseU32 ("30") = some 30 := by decide
    have h14 : rustParseU32 ("14") = some 14 := by decide
    unfold is_time_to_run
    rw [hsp]
    show (matchesField ("30") m && matchesField ("14") h) =
      (decide (m = 30) && decide (h = 14))
    have e30 : matchesField ("30") m = decide (m = 30) := by
      simp [matchesField, h30, eq_comm]
    have e14 : matchesField ("14") h = decide (h = 14) := by
      simp [matchesField, h14, eq_comm]
    rw [e30, e14]


theorem is_time_to_run_spec_witness :
    is_time_to_run ("30 14 * * *") 30 14 = true := by
  have hc := (is_time_to_run_spec ("30 14 * * *") 30 14 (by decide)
    (by decide)).2.2
  simpa using hc

/-- C6: on a scheduler tick, an enabled task whose cron matches the
current time is dispatched exactly when its last_run has no parseable
timestamp or at least 90 seconds have elapsed since it; a dispatched task
has last_run stamped with the current time, an undispatched task is
unchanged; the stamped value never moves backwards (a parseable old
last_run is at most now); and two consecutive dispatches of the same task
are at least 90 seconds apart (given the stamp parses back to the time it
was stamped with, as RFC3339 round-trips do). -/
theorem scheduler_task_dispatch_spec
    (parse : String → Option Int) (fmt : Int → String) (now : Int)
    (m h : Nat) (task : ScheduledTask) :
    ((schedulerProcessTask parse fmt now m h task).2 = true ↔
      task.enabled = true ∧
      is_time_to_run task.cron_expression m h = true ∧
      (task.last_run.bind parse = none ∨
        ∃ l, task.last_run.bind parse = some l ∧ 90 ≤ now - l)) ∧
    ((schedulerProcessTask parse fmt now m h task).2 = true →
      (schedulerProcessTask parse fmt now m h task).1 =
        { task with last_run := some (fmt now) }) ∧
    ((schedulerProcessTask parse fmt now m h task).2 = false →
      (schedulerProcessTask parse fmt now m h task).1 = task) ∧
    (∀ l, task.last_run.bind parse = some l →
      (schedulerProcessTask parse fmt now m h task).2 = true → l ≤ now) ∧
    (parse (fmt now) = some now →
      (schedulerProcessTask parse fmt now m h task).2 = true →
      ∀ (now2 : Int) (m2 h2 : Nat),
        (schedulerProcessTask parse fmt now2 m2 h2
          (schedulerProcessTask parse fmt now m h task).1).2 = true →
        90 ≤ now2 - now) := by
  have hfire : ∀ (now3 : Int) (m3 h3 : Nat) (t : ScheduledTask),
      (schedulerProcessTask parse fmt now3 m3 h3 t).2 = true ↔
      t.enabled = true ∧
      is_time_to_run t.cron_expression m3 h3 = true ∧
      (t.last_run.bind parse = none ∨
        ∃ l, t.last_run.bind parse = some l ∧ 90 ≤ now3 - l) := by
    intro now3 m3 h3 t
    cases he : t.enabled
    · simp [schedulerProcessTask, he]
    · cases ht : is_time_to_run t.cron_expression m3 h3
      · simp [schedulerProcessTask, he, ht]
      · cases hl : t.last_run.bind parse with
        | none => simp [schedulerProcessTask, he, ht, hl]
        | some l =>
            by_cases hr : now3 - l < 90 <;>
              simp [schedulerProcessTask, he, ht, hl, hr] <;> omega
  have hstamp : ∀ (now3 : Int) (m3 h3 : Nat) (t : ScheduledTask),
      (schedulerProcessTask parse fmt now3 m3 h3 t).2 = true →
      (schedulerProcessTask parse fmt now3 m3 h3 t).1 =
        { t with last_run := some (fmt now3) } := by
    intro now3 m3 h3 t hf
    rcases (hfire now3 m3 h3 t).mp hf with ⟨he, ht, hdisj⟩
    rcases hdisj with hl | ⟨l, hl, hge⟩
    · simp [schedulerProcessTask, he, ht, hl]
    · have hr : ¬ (now3 - l < 90) := by omega
      simp [schedulerProcessTask, he, ht, hl, hr]
  have hkeep : ∀ (now3 : Int) (m3 h3 : Nat) (t : ScheduledTask),
      (schedulerProcessTask parse fmt now3 m3 h3 t).2 = false →
      (schedulerProcessTask parse fmt now3 m3 h3 t).1 = t := by
    intro now3 m3 h3 t hf
    cases he : t.enabled
    · simp [schedulerProcessTask, he]
    · cases ht : is_time_to_run t.cron_expression m3 h3
      · simp [schedulerProcessTask, he, ht]
      · cases hl : t.last_run.bind parse with
        | none =>
            exfalso
            have htrue : (schedulerProcessTask parse fmt now3 m3 h3 t).2
                = true :=
              (hfire now3 m3 h3 t).mpr ⟨he, ht, Or.inl hl⟩
            rw [htrue] at hf
            simp at hf
        | some l =>
            by_cases hr : now3 - l < 90
            · simp [schedulerProcessTask, he, ht, hl, hr]
            · exfalso
              have htrue : (schedulerProcessTask parse fmt now3 m3 h3 t).2
                  = true :=
                (hfire now3 m3 h3 t).mpr
                  ⟨he, ht, Or.inr ⟨l, hl, by omega⟩⟩
              rw [htrue] at hf
              simp at hf
  refine ⟨hfire now m h task, hstamp now m h task, hkeep now m h task,
    ?_, ?_⟩
  · intro l hl hf
    rcases (hfire now m h task).mp hf with ⟨-, -, hcase⟩
    rcases hcase with hnone | ⟨l2, hl2, hge⟩
    · rw [hl] at hnone
      exact absurd hnone (by simp)
    · rw [hl] at hl2
      have hll : l = l2 := by simpa using hl2
      omega
  · intro hrt hf now2 m2 h2 hf2
    have h1 := hstamp now m h task hf
    rw [h1] at hf2
    have hl2 : ({ task with last_run := some (fmt now) }
        : ScheduledTask).last_run.bind parse = some now := hrt
    rcases (hfire now2 m2 h2 _).mp hf2 with ⟨-, -, hcase⟩
    rcases hcase with hnone | ⟨l2, hl3, hge⟩
    · rw [hl2] at hnone
      exact absurd hnone (by simp)
    · rw [hl2] at hl3
      have hnl : now = l2 := by simpa using hl3
      omega


theorem scheduler_task_dispatch_spec_witness :
    (schedulerProcessTask
      (fun s => if s = ("t") then some (100 : Int) else none)
      (fun _ => ("t")) 100 0 0
      { id := ("1"), name := ("n"), task_type := ("backup")
        server_id := ("a"), server_name := ("srv")
        cron_expression := ("* * * * *"), enabled := true
        last_run := none, command := none }).2 = true ∧
    (90 : Int) ≤ 300 - 100 :=
  ⟨by decide,
   (scheduler_task_dispatch_spec
      (fun s => if s = ("t") then some (100 : Int) else none)
      (fun _ => ("t")) 100 0 0
      { id := ("1"), name := ("n"), task_type := ("backup")
        server_id := ("a"), server_name := ("srv")
        cron_expression := ("* * * * *"), enabled := true
        last_run := none, command := none }).2.2.2.2
     (by decide) (by decide) 300 0 0 (by decide)⟩

end MineServer
